import Mathlib

/-!
Verification of the RAG Product QnA system.

The repository has three Python sources:
  scripts/1_ingest_data.py  — document loading, chunking, vector-store creation
  scripts/2_run_query.py    — CLI query pipeline
  app/main.py               — FastAPI service with startup initialization and
                              a query endpoint

This file gives a shallow embedding of those sources.  Text is modelled as
`List Char`, machine state as explicit records, exceptions as `Except` or
explicit outcome types.  Components whose implementation lives in third-party
libraries (the langchain `RecursiveCharacterTextSplitter` and the Chroma
similarity search) are modelled from the specification's description of their
contract; such definitions carry a doc comment starting `Modelled from the
spec:`.
-/

/-- CHUNK_SIZE from scripts/1_ingest_data.py. -/
def CHUNK_SIZE : Nat := 500

/-- CHUNK_OVERLAP from scripts/1_ingest_data.py. -/
def CHUNK_OVERLAP : Nat := 50

/-- A loaded document: one page of a source file, with its provenance path
carried as metadata (the `source` key attached by the loader). -/
structure Document where
  page_content : List Char
  source : String
deriving DecidableEq

/-- A text chunk produced by splitting, keeping provenance. -/
structure Chunk where
  text : List Char
  source : String
deriving DecidableEq

/-- Modelled from the spec: the splitter used by `split_documents` is
third-party library code (langchain `RecursiveCharacterTextSplitter`) whose
implementation is not in the repository sources.  Section 4.2 of the spec
describes its contract: chunks are at most `chunk_size` characters and each
chunk preserves `chunk_overlap` characters of trailing context from the
previous chunk as its start (with `chunk_overlap < chunk_size`).  This models
that contract as a character window: each chunk takes at most `cs` characters
and each successive chunk starts `cs - co` characters after the previous one,
so consecutive chunks share exactly `co` characters. -/
def chunkText (cs co : Nat) (s : List Char) : List (List Char) :=
  if h : s.length ≤ cs ∨ cs ≤ co then [s]
  else s.take cs :: chunkText cs co (s.drop (cs - co))
termination_by s.length
decreasing_by
  push_neg at h
  simp only [List.length_drop]
  omega

/-- split_documents from scripts/1_ingest_data.py: chunk every document with
the configured CHUNK_SIZE and CHUNK_OVERLAP, keeping provenance per chunk. -/
def split_documents (docs : List Document) : List Chunk :=
  docs.flatMap fun d =>
    (chunkText CHUNK_SIZE CHUNK_OVERLAP d.page_content).map fun t => ⟨t, d.source⟩

theorem chunkText_ne_nil (cs co : Nat) (s : List Char) : chunkText cs co s ≠ [] := by
  rw [chunkText]
  split <;> simp

theorem chunkText_head_take (cs co : Nat) (hco : co ≤ cs) (s : List Char) :
    ∃ c t, chunkText cs co s = c :: t ∧ c.take co = s.take co := by
  rw [chunkText]
  split
  · exact ⟨s, [], rfl, rfl⟩
  · exact ⟨s.take cs, _, rfl, by rw [List.take_take, Nat.min_eq_left hco]⟩

theorem chunkText_length_le (cs co : Nat) (hco : co < cs) (s : List Char) :
    ∀ c ∈ chunkText cs co s, c.length ≤ cs := by
  rw [chunkText]
  split
  · rename_i h
    intro c hc
    rw [List.mem_singleton] at hc
    subst hc
    omega
  · rename_i h
    push_neg at h
    intro c hc
    rcases List.mem_cons.mp hc with rfl | hc
    · exact List.length_take_le cs s
    · exact chunkText_length_le cs co hco (s.drop (cs - co)) c hc
termination_by s.length
decreasing_by
  simp only [List.length_drop]
  omega

theorem chunkText_chain (cs co : Nat) (hco : co < cs) (s : List Char) :
    List.Chain' (fun c₁ c₂ => c₁.drop (c₁.length - co) = c₂.take co)
      (chunkText cs co s) := by
  rw [chunkText]
  split
  · exact List.chain'_singleton s
  · rename_i h
    push_neg at h
    rw [List.chain'_cons']
    refine ⟨?_, chunkText_chain cs co hco (s.drop (cs - co))⟩
    intro b hb
    obtain ⟨c, t, heq, hct⟩ := chunkText_head_take cs co (Nat.le_of_lt hco) (s.drop (cs - co))
    rw [heq] at hb
    simp only [List.head?_cons, Option.mem_def, Option.some.injEq] at hb
    subst hb
    rw [hct, List.length_take, Nat.min_eq_left (Nat.le_of_lt h.1), List.drop_take]
    congr 1
    omega
termination_by s.length
decreasing_by
  simp only [List.length_drop]
  omega

/-- Claim C1: with chunk_size = 500 and chunk_overlap = 50, every chunk
produced for a document has text of length at most chunk_size, and for every
pair of consecutive chunks of the same document the trailing chunk_overlap
characters of the former equal the leading characters of the latter. -/
theorem chunk_size_and_overlap_invariant (d : Document) :
    (∀ c ∈ chunkText CHUNK_SIZE CHUNK_OVERLAP d.page_content, c.length ≤ CHUNK_SIZE) ∧
    List.Chain' (fun c₁ c₂ => c₁.drop (c₁.length - CHUNK_OVERLAP) = c₂.take CHUNK_OVERLAP)
      (chunkText CHUNK_SIZE CHUNK_OVERLAP d.page_content) :=
  ⟨chunkText_length_le CHUNK_SIZE CHUNK_OVERLAP (by decide) d.page_content,
   chunkText_chain CHUNK_SIZE CHUNK_OVERLAP (by decide) d.page_content⟩

/-- Claim C6: chunking is deterministic — a pure function of the document text
and the (chunk_size, chunk_overlap) configuration: running the splitter twice
on the same input yields identical chunk lists and the same chunk count. -/
theorem chunking_deterministic (cs co : Nat) (s t : List Char) (h : s = t) :
    chunkText cs co s = chunkText cs co t ∧
    (chunkText cs co s).length = (chunkText cs co t).length := by
  subst h
  exact ⟨rfl, rfl⟩

theorem chunking_deterministic_witness :
    chunkText CHUNK_SIZE CHUNK_OVERLAP "abc".toList = chunkText CHUNK_SIZE CHUNK_OVERLAP "abc".toList ∧
    (chunkText CHUNK_SIZE CHUNK_OVERLAP "abc".toList).length =
      (chunkText CHUNK_SIZE CHUNK_OVERLAP "abc".toList).length :=
  chunking_deterministic CHUNK_SIZE CHUNK_OVERLAP "abc".toList "abc".toList rfl

/-- The fixed top-k of the retriever built in app/main.py and
scripts/2_run_query.py: as_retriever with k = 3. -/
def RETRIEVER_K : Nat := 3

/-- Persisted form of a chunk inside the vector store: its text, its embedding
vector and its source metadata. -/
structure IndexEntry where
  text : List Char
  embedding : List Int
  source : String
deriving DecidableEq

/-- A retrieved entry: the stored entry together with its insertion index in
the store and its similarity score against the query vector. -/
structure Scored where
  idx : Nat
  entry : IndexEntry
  score : Int
deriving DecidableEq

/-- Inner product of two vectors, the similarity measure. -/
def dotProduct : List Int → List Int → Int
  | [], _ => 0
  | _, [] => 0
  | a :: as, b :: bs => a * b + dotProduct as bs

/-- Ranking order on scored entries: higher score first, ties broken by the
original insertion index (earlier-ingested entry first). -/
def rankLE (a b : Scored) : Prop :=
  b.score < a.score ∨ (a.score = b.score ∧ a.idx ≤ b.idx)

instance : DecidableRel rankLE := fun a b => by
  unfold rankLE
  infer_instance

instance : IsTotal Scored rankLE := ⟨by
  intro a b
  unfold rankLE
  omega⟩

instance : IsTrans Scored rankLE := ⟨by
  intro a b c
  unfold rankLE
  omega⟩

/-- Modelled from the spec: the similarity search of the vector store is
third-party library code (Chroma) not present in the repository sources.
Section 4.3 of the spec describes its contract: score every stored embedding
against the query vector by a normalized inner product and return the top-k by
descending score, ties broken by insertion order, and return an empty result on
an empty store.  Scoring, stable descending selection, and truncation to k are
modelled directly; the query never fails (total function into a list). -/
def indexQuery (entries : List IndexEntry) (v : List Int) (k : Nat) : List Scored :=
  ((entries.enum.map fun p => ⟨p.1, p.2, dotProduct v p.2.embedding⟩).insertionSort rankLE).take k

/-- The scored entries carry pairwise-distinct insertion indices. -/
theorem indexQuery_pairwise_idx_ne (entries : List IndexEntry) (v : List Int) :
    List.Pairwise (fun a b : Scored => a.idx ≠ b.idx)
      ((entries.enum.map fun p => ⟨p.1, p.2, dotProduct v p.2.embedding⟩).insertionSort rankLE) := by
  rw [List.Perm.pairwise_iff (fun hab => Ne.symm hab) (List.perm_insertionSort rankLE _)]
  rw [List.pairwise_map]
  have h : (entries.enum.map Prod.fst).Nodup := by
    rw [List.enum_map_fst]
    exact List.nodup_range _
  unfold List.Nodup at h
  rw [List.pairwise_map] at h
  exact h

/-- Claim C5: for every query vector, retrieval with the configured k = 3
returns an ordered sequence of at most 3 scored entries whose scores are
non-increasing by position; on equal scores the earlier-ingested entry (the
one with the smaller insertion index) comes first. -/
theorem retrieval_topk_sorted (entries : List IndexEntry) (v : List Int) :
    (indexQuery entries v RETRIEVER_K).length ≤ RETRIEVER_K ∧
    List.Chain' (fun a b => b.score < a.score ∨ (a.score = b.score ∧ a.idx < b.idx))
      (indexQuery entries v RETRIEVER_K) := by
  refine ⟨List.length_take_le _ _, ?_⟩
  have hs : List.Pairwise rankLE
      ((entries.enum.map fun p => ⟨p.1, p.2, dotProduct v p.2.embedding⟩).insertionSort rankLE) :=
    List.sorted_insertionSort rankLE _
  have hcomb := hs.and (indexQuery_pairwise_idx_ne entries v)
  have hstrict : List.Pairwise
      (fun a b : Scored => b.score < a.score ∨ (a.score = b.score ∧ a.idx < b.idx))
      ((entries.enum.map fun p => ⟨p.1, p.2, dotProduct v p.2.embedding⟩).insertionSort rankLE) := by
    refine hcomb.imp ?_
    intro a b hab
    obtain ⟨h1, h2⟩ := hab
    unfold rankLE at h1
    omega
  unfold indexQuery
  exact (hstrict.sublist (List.take_sublist _ _)).chain'

/-- Claim C2: querying an index that contains zero entries returns the empty
retrieval result for every query vector and every k; the query is a total
function of the store contents, so the empty store yields the empty result
rather than a failure. -/
theorem empty_index_query_empty (v : List Int) (k : Nat) :
    indexQuery [] v k = [] := by
  simp [indexQuery, List.insertionSort]

/-- VECTOR_DB_PATH from app/main.py and scripts. -/
def VECTOR_DB_PATH : String := "models/chroma_db"

/-- LLM_MODEL_NAME from app/main.py. -/
def LLM_MODEL_NAME : String := "mistral-large-latest"

/-- The process environment and filesystem facts app/main.py consults at
initialization: the MISTRAL_API_KEY environment variable and whether a
persisted vector store exists at VECTOR_DB_PATH. -/
structure Env where
  mistral_api_key : Option String
  vector_db_exists : Bool
deriving DecidableEq

/-- Truthiness of an os.getenv result: unset and the empty string are falsy. -/
def envTruthy : Option String → Bool
  | none => false
  | some s => !(decide (s = ""))

/-- The exceptions initialize_qa_chain can raise. -/
inductive InitError where
  | valueError (msg : String)
  | fileNotFoundError (msg : String)
deriving DecidableEq

/-- Message text of an initialization error, as interpolated by the startup
print. -/
def InitError.message : InitError → String
  | .valueError m => m
  | .fileNotFoundError m => m

/-- The RetrievalQA chain that initialize_qa_chain constructs: Mistral LLM at
temperature 0, retriever with k = 3, stuff chain type, source documents
returned. -/
structure QAChain where
  llm_model : String
  temperature : Nat
  k : Nat
  chain_type : String
  return_source_documents : Bool
deriving DecidableEq

/-- The chain value built by the body of initialize_qa_chain. -/
def mkQAChain : QAChain :=
  ⟨LLM_MODEL_NAME, 0, RETRIEVER_K, "stuff", true⟩

/-- initialize_qa_chain from app/main.py.  The global qa_chain is passed and
returned explicitly; a successful result carries the returned chain, the new
global state, and how many chains this call constructed (0 on the early
return, 1 when the body runs). -/
def initialize_qa_chain (env : Env) (qa_chain : Option QAChain) :
    Except InitError (QAChain × Option QAChain × Nat) :=
  match qa_chain with
  | some c => .ok (c, some c, 0)
  | none =>
    if !envTruthy env.mistral_api_key then
      .error (.valueError "MISTRAL_API_KEY environment variable not set.")
    else if !env.vector_db_exists then
      .error (.fileNotFoundError
        ("Vector store not found at " ++ VECTOR_DB_PATH ++ ". Run 1_ingest_data.py first."))
    else
      .ok (mkQAChain, some mkQAChain, 1)

/-- Service state: the global qa_chain and what the startup hook printed on a
fatal initialization error. -/
structure AppState where
  qa_chain : Option QAChain
  fatal_log : Option String
deriving DecidableEq

/-- startup_event from app/main.py: runs initialize_qa_chain, catching
ValueError and FileNotFoundError and printing the cause; the global qa_chain
is updated only on success and the process keeps running either way. -/
def startup_event (env : Env) (st : AppState) : AppState :=
  match initialize_qa_chain env st.qa_chain with
  | .ok (_, st2, _) => ⟨st2, st.fatal_log⟩
  | .error e => ⟨st.qa_chain, some ("FATAL ERROR during startup: " ++ e.message)⟩

/-- Request body of POST /query. -/
structure QueryRequest where
  question : String
deriving DecidableEq

/-- A source document surfaced by the chain invocation: its page content and
its metadata key-value pairs. -/
structure SourceDoc where
  page_content : List Char
  metadata : List (String × String)
deriving DecidableEq

/-- The dict returned by qa_chain.invoke: the generated answer text under the
result key and the retrieved source documents. -/
structure InvokeOutput where
  result : String
  source_documents : List SourceDoc
deriving DecidableEq

/-- The pydantic SourceDocument of app/main.py. -/
structure SourceDocument where
  source : String
  content : List Char
deriving DecidableEq

/-- The pydantic QueryResponse of app/main.py. -/
structure QueryResponse where
  answer : String
  sources : List SourceDocument
  model : String
deriving DecidableEq

/-- Outcome of the /query endpoint: an HTTPException with status code and
detail, or a successful response body. -/
inductive QueryOutcome where
  | http (status : Nat) (detail : String)
  | success (resp : QueryResponse)
deriving DecidableEq

/-- Python dict.get with a default, over the metadata pairs. -/
def metadataGet (m : List (String × String)) (key dflt : String) : String :=
  match m.lookup key with
  | some v => v
  | none => dflt

/-- query_endpoint from app/main.py.  The chain invocation is passed as an
oracle: it either fails with an exception message or yields an InvokeOutput. -/
def query_endpoint (st : AppState)
    (invoke : String → Except String InvokeOutput) (req : QueryRequest) :
    QueryOutcome :=
  match st.qa_chain with
  | none => .http 503 "RAG service not initialized or missing dependencies."
  | some _ =>
    match invoke req.question with
    | .error e => .http 500 ("Internal processing error: " ++ e)
    | .ok out =>
      .success ⟨out.result,
        out.source_documents.map fun doc =>
          ⟨metadataGet doc.metadata "source" "N/A", doc.page_content⟩,
        LLM_MODEL_NAME⟩

/-- Claim C3: when initialization fails because MISTRAL_API_KEY is unset (or
empty) or no persisted vector store exists at the configured path, the service
never reaches a serving-ready state: after the startup hook runs, the global
chain is still absent, the cause has been reported in the startup log, and
every query is refused with the 503 not-ready status instead of being served
by an uninitialized pipeline. -/
theorem config_error_refuses_serving (env : Env) (st : AppState)
    (h0 : st.qa_chain = none)
    (hbad : envTruthy env.mistral_api_key = false ∨ env.vector_db_exists = false) :
    (startup_event env st).qa_chain = none ∧
    (∃ cause, (startup_event env st).fatal_log =
        some ("FATAL ERROR during startup: " ++ cause)) ∧
    ∀ invoke req, query_endpoint (startup_event env st) invoke req =
        .http 503 "RAG service not initialized or missing dependencies." := by
  have hres : ∃ e, initialize_qa_chain env none = .error e := by
    unfold initialize_qa_chain
    rcases hbad with hb | hb
    · rw [hb]
      exact ⟨_, rfl⟩
    · cases htr : envTruthy env.mistral_api_key
      · exact ⟨_, rfl⟩
      · rw [hb]
        exact ⟨_, rfl⟩
  obtain ⟨e, he⟩ := hres
  unfold startup_event
  rw [h0, he]
  exact ⟨rfl, ⟨e.message, rfl⟩, fun invoke req => rfl⟩

theorem config_error_refuses_serving_witness :
    (startup_event ⟨none, false⟩ ⟨none, none⟩).qa_chain = none ∧
    (∃ cause, (startup_event ⟨none, false⟩ ⟨none, none⟩).fatal_log =
        some ("FATAL ERROR during startup: " ++ cause)) ∧
    ∀ invoke req, query_endpoint (startup_event ⟨none, false⟩ ⟨none, none⟩) invoke req =
        .http 503 "RAG service not initialized or missing dependencies." :=
  config_error_refuses_serving ⟨none, false⟩ ⟨none, none⟩ rfl (Or.inl rfl)

/-- Claim C7: initialization is idempotent — after one successful call has set
the global chain, every subsequent call (under any environment) returns that
same already-constructed chain, leaves the global state unchanged, and
constructs zero new chains. -/
theorem initialization_idempotent (env env2 : Env) (c : QAChain)
    (st2 : Option QAChain) (n : Nat)
    (h : initialize_qa_chain env none = .ok (c, st2, n)) :
    st2 = some c ∧ initialize_qa_chain env2 (some c) = .ok (c, some c, 0) := by
  refine ⟨?_, rfl⟩
  unfold initialize_qa_chain at h
  split at h
  · rename_i qa2 c2 heq
    exact absurd heq (by simp)
  · split at h
    · exact absurd h (by simp)
    · split at h
      · exact absurd h (by simp)
      · simp only [Except.ok.injEq, Prod.mk.injEq] at h
        obtain ⟨hc, hst, -⟩ := h
        subst hc
        subst hst
        rfl

theorem initialization_idempotent_witness :
    some mkQAChain = some mkQAChain ∧
    initialize_qa_chain ⟨some "key", true⟩ (some mkQAChain) =
      .ok (mkQAChain, some mkQAChain, 0) :=
  initialization_idempotent ⟨some "key", true⟩ ⟨some "key", true⟩ mkQAChain
    (some mkQAChain) 1 rfl

/-- Claim C8: a query arriving while the chain is uninitialized is refused
with the distinguished 503 service-unavailable status; a processing failure on
an initialized service yields the distinct 500 internal-error status carrying
the failure message; and no 503 not-ready outcome ever equals a 500
processing-error outcome. -/
theorem not_ready_vs_processing_error (st : AppState)
    (invoke : String → Except String InvokeOutput) (req : QueryRequest) :
    (st.qa_chain = none →
      query_endpoint st invoke req =
        .http 503 "RAG service not initialized or missing dependencies.") ∧
    (∀ c e, st.qa_chain = some c → invoke req.question = .error e →
      query_endpoint st invoke req = .http 500 ("Internal processing error: " ++ e)) ∧
    (∀ d1 d2, QueryOutcome.http 503 d1 ≠ QueryOutcome.http 500 d2) := by
  refine ⟨?_, ?_, ?_⟩
  · intro h
    unfold query_endpoint
    rw [h]
  · intro c e hc he
    unfold query_endpoint
    rw [hc, he]
  · intro d1 d2 hcontra
    injection hcontra with h1 h2
    exact absurd h1 (by decide)

theorem not_ready_vs_processing_error_witness :
    query_endpoint ⟨none, none⟩ (fun _ => .error "boom") ⟨"q"⟩ =
      .http 503 "RAG service not initialized or missing dependencies." ∧
    query_endpoint ⟨some mkQAChain, none⟩ (fun _ => .error "boom") ⟨"q"⟩ =
      .http 500 ("Internal processing error: " ++ "boom") :=
  ⟨(not_ready_vs_processing_error ⟨none, none⟩ (fun _ => .error "boom") ⟨"q"⟩).1 rfl,
   (not_ready_vs_processing_error ⟨some mkQAChain, none⟩
      (fun _ => .error "boom") ⟨"q"⟩).2.1 mkQAChain "boom" rfl rfl⟩

/-- Claim C9: every successfully answered query returns exactly one citation
per retrieved document, in retrieval order: the citation list has the same
length as the retrieved list, and at every position the citation's content is
that document's full text and its source is the metadata source (defaulted). -/
theorem citations_match_retrieval (st : AppState) (c : QAChain)
    (invoke : String → Except String InvokeOutput) (req : QueryRequest)
    (out : InvokeOutput) (hc : st.qa_chain = some c)
    (hi : invoke req.question = .ok out) :
    ∃ resp, query_endpoint st invoke req = .success resp ∧
      resp.answer = out.result ∧
      resp.sources.length = out.source_documents.length ∧
      (∀ i, (resp.sources.get? i).map SourceDocument.content =
        (out.source_documents.get? i).map SourceDoc.page_content) ∧
      (∀ i, (resp.sources.get? i).map SourceDocument.source =
        (out.source_documents.get? i).map
          fun doc => metadataGet doc.metadata "source" "N/A") := by
  have hq : query_endpoint st invoke req = .success
      ⟨out.result,
        out.source_documents.map fun doc =>
          ⟨metadataGet doc.metadata "source" "N/A", doc.page_content⟩,
        LLM_MODEL_NAME⟩ := by
    unfold query_endpoint
    rw [hc, hi]
  refine ⟨_, hq, rfl, by simp, ?_, ?_⟩
  · intro i
    simp only [List.get?_map, Option.map_map]
    rfl
  · intro i
    simp only [List.get?_map, Option.map_map]
    rfl

theorem citations_match_retrieval_witness :
    ∃ resp, query_endpoint ⟨some mkQAChain, none⟩
        (fun _ => .ok ⟨"ans", [⟨"watts".toList, [("source", "manual.pdf")]⟩]⟩) ⟨"q"⟩ =
        .success resp ∧
      resp.answer = InvokeOutput.result ⟨"ans", [⟨"watts".toList, [("source", "manual.pdf")]⟩]⟩ ∧
      resp.sources.length =
        (InvokeOutput.source_documents ⟨"ans", [⟨"watts".toList, [("source", "manual.pdf")]⟩]⟩).length ∧
      (∀ i, (resp.sources.get? i).map SourceDocument.content =
        ((InvokeOutput.source_documents
          ⟨"ans", [⟨"watts".toList, [("source", "manual.pdf")]⟩]⟩).get? i).map
            SourceDoc.page_content) ∧
      (∀ i, (resp.sources.get? i).map SourceDocument.source =
        ((InvokeOutput.source_documents
          ⟨"ans", [⟨"watts".toList, [("source", "manual.pdf")]⟩]⟩).get? i).map
            fun doc => metadataGet doc.metadata "source" "N/A") :=
  citations_match_retrieval ⟨some mkQAChain, none⟩ mkQAChain
    (fun _ => .ok ⟨"ans", [⟨"watts".toList, [("source", "manual.pdf")]⟩]⟩) ⟨"q"⟩
    ⟨"ans", [⟨"watts".toList, [("source", "manual.pdf")]⟩]⟩ rfl rfl

/-- Claim C10: a retrieved document whose metadata lacks the source key does
not fail the request: the response still succeeds and that citation reports
the literal N/A as its source together with the document's full text as its
content. -/
theorem missing_source_metadata_na (st : AppState) (c : QAChain)
    (invoke : String → Except String InvokeOutput) (req : QueryRequest)
    (out : InvokeOutput) (i : Nat) (doc : SourceDoc)
    (hc : st.qa_chain = some c) (hi : invoke req.question = .ok out)
    (hdoc : out.source_documents.get? i = some doc)
    (hmiss : doc.metadata.lookup "source" = none) :
    ∃ resp, query_endpoint st invoke req = .success resp ∧
      resp.sources.get? i = some ⟨"N/A", doc.page_content⟩ := by
  have hq : query_endpoint st invoke req = .success
      ⟨out.result,
        out.source_documents.map fun d =>
          ⟨metadataGet d.metadata "source" "N/A", d.page_content⟩,
        LLM_MODEL_NAME⟩ := by
    unfold query_endpoint
    rw [hc, hi]
  refine ⟨_, hq, ?_⟩
  simp only [List.get?_map, hdoc, Option.map_some']
  unfold metadataGet
  rw [hmiss]

theorem missing_source_metadata_na_witness :
    ∃ resp, query_endpoint ⟨some mkQAChain, none⟩
        (fun _ => .ok ⟨"ans", [⟨"watts".toList, []⟩]⟩) ⟨"q"⟩ = .success resp ∧
      resp.sources.get? 0 = some ⟨"N/A", "watts".toList⟩ :=
  missing_source_metadata_na ⟨some mkQAChain, none⟩ mkQAChain
    (fun _ => .ok ⟨"ans", [⟨"watts".toList, []⟩]⟩) ⟨"q"⟩
    ⟨"ans", [⟨"watts".toList, []⟩]⟩ 0 ⟨"watts".toList, []⟩ rfl rfl rfl rfl

mutual
/-- A directory tree.  The tree carries its entries as its own list-shaped
constructors so that all recursions over it are structural. -/
inductive FsTree where
  | nil : FsTree
  | cons : FsDirEntry → FsTree → FsTree
inductive FsDirEntry where
  | file : String → FsDirEntry
  | subdir : String → FsTree → FsDirEntry
end

/-- The name of a directory entry as os.listdir reports it (a directory is
listed by name just like a file). -/
def FsDirEntry.name : FsDirEntry → String
  | .file n => n
  | .subdir n _ => n

/-- os.listdir of the data directory: the names of its immediate entries. -/
def listdirNames : FsTree → List String
  | .nil => []
  | .cons e t => e.name :: listdirNames t

/-- Python str.endswith for the .pdf extension, over the character data. -/
def endsWithPdf (n : String) : Bool :=
  List.isSuffixOf ".pdf".data n.data

mutual
/-- All .pdf files anywhere under the tree: the files the DirectoryLoader of
load_documents matches with its recursive glob (only file entries match the
glob; a directory whose name ends in .pdf is not a matched file). -/
def treePdfFiles : FsTree → List String
  | .nil => []
  | .cons e t => entryPdfFiles e ++ treePdfFiles t
def entryPdfFiles : FsDirEntry → List String
  | .file n => if endsWithPdf n then [n] else []
  | .subdir _ t => treePdfFiles t
end

/-- load_documents from scripts/1_ingest_data.py: DirectoryLoader with the
recursive .pdf glob and PyPDFLoader, producing one Document per page of every
matched file; the page contents of each file come from the pdf parser, passed
here as an oracle from file name to page texts. -/
def load_documents (d : FsTree) (pages : String → List (List Char)) : List Document :=
  (treePdfFiles d).flatMap fun n => (pages n).map fun pg => ⟨pg, n⟩

/-- Outcome of one run of the main block of scripts/1_ingest_data.py: either
the error print with no store written, or a store persisted with the chunks. -/
inductive IngestOutcome where
  | aborted (msg : String)
  | persisted (chunks : List Chunk)
deriving DecidableEq

/-- The diagnostic printed when the guard finds no .pdf name. -/
def NO_PDF_ERROR : String :=
  "ERROR: Please place your product manuals (.pdf files) into the data/ directory first."

/-- The main block of scripts/1_ingest_data.py: it checks whether any name in
os.listdir of the data directory ends with .pdf (immediate entry names only,
directories included); if none does, it prints the diagnostic and stops
without building or persisting anything; otherwise it loads documents, splits
them, and persists the resulting chunks via create_vector_store. -/
def ingest_main (d : FsTree) (pages : String → List (List Char)) : IngestOutcome :=
  if !((listdirNames d).any endsWithPdf) then .aborted NO_PDF_ERROR
  else .persisted (split_documents (load_documents d pages))

/-- Claim C4 counterexample: two concrete data directories refute the claim as
stated.  First, a directory whose only entry is a subdirectory holding
manual.pdf: it contains a matching file under it, yet ingestion aborts because
os.listdir does not see nested files.  Second, a directory whose only entry is
an empty subdirectory named fake.pdf: it contains zero matching files, yet
ingestion proceeds and persists an empty store because the guard checks entry
names only. -/
theorem ingest_guard_counterexample :
    (treePdfFiles (.cons (.subdir "sub" (.cons (.file "manual.pdf") .nil)) .nil) =
        ["manual.pdf"] ∧
      ingest_main (.cons (.subdir "sub" (.cons (.file "manual.pdf") .nil)) .nil)
        (fun _ => [[]]) = .aborted NO_PDF_ERROR) ∧
    (treePdfFiles (.cons (.subdir "fake.pdf" .nil) .nil) = [] ∧
      ingest_main (.cons (.subdir "fake.pdf" .nil) .nil) (fun _ => [[]]) =
        .persisted []) := by
  refine ⟨⟨?_, ?_⟩, ?_, ?_⟩ <;> decide

/-- Claim C4 (amended): the ingestion guard is purely a top-level name check.
Ingestion aborts with the diagnostic, building nothing, exactly when no
immediate entry name of the data directory ends with .pdf — files matching
only inside subdirectories do not count, and a subdirectory whose own name
ends with .pdf passes the guard.  When some immediate entry name ends with
.pdf, ingestion loads every .pdf file anywhere under the directory, chunks the
loaded documents, and persists the chunks (an empty chunk list included). -/
theorem ingest_aborts_iff_no_toplevel_pdf_name (d : FsTree)
    (pages : String → List (List Char)) :
    (ingest_main d pages = .aborted NO_PDF_ERROR ↔
      (listdirNames d).any endsWithPdf = false) ∧
    ((listdirNames d).any endsWithPdf = true →
      ingest_main d pages = .persisted (split_documents (load_documents d pages))) := by
  unfold ingest_main
  cases h : (listdirNames d).any endsWithPdf <;> simp

theorem ingest_aborts_iff_no_toplevel_pdf_name_witness :
    ingest_main (.cons (.file "manual.pdf") .nil) (fun _ => ["watts".toList]) =
      .persisted (split_documents (load_documents (.cons (.file "manual.pdf") .nil)
        (fun _ => ["watts".toList]))) :=
  (ingest_aborts_iff_no_toplevel_pdf_name (.cons (.file "manual.pdf") .nil)
    (fun _ => ["watts".toList])).2 (by decide)
